import Mathlib

/-!
Shallow embedding of `nbs/c.py` (pysymbol-llm): a documentation generator
that walks a package's modules, extracts public functions, classes and
methods from astroid syntax trees, and renders a Markdown file list.

Python exceptions are modelled with `Except String`: a raised exception is
an `.error` carrying the exception's message (`str(e)`).  Astroid node
access can raise (inference errors and the like); this possibility is
modelled by an optional pending exception `exn` carried on a node, which
the per-node extractors surface on entry.  A node with `exn = none`
behaves as a plain parsed node.
-/

/-- An astroid `FunctionDef` node, restricted to the fields `c.py` reads:
`args.args` (positional parameter names), `doc_node` (`none` when the
function has no docstring, otherwise its `.value`), and the decorator
source strings (`decorators.nodes`, rendered by `as_string`; `[]` models
`obj.decorators` being `None`).  `exn` models an exception raised while
accessing the node's attributes. -/
structure FunctionDef where
  argNames : List String
  docNode : Option String
  decorators : List String
  exn : Option String
deriving Repr, DecidableEq

/-- A binding inside a class body: a method (`FunctionDef`), a nested class
(never recursed into by `c.py`, so its body is irrelevant and elided), or
some other binding (assignment, import alias, ...). -/
inductive ClassItem where
  | functionDef (f : FunctionDef)
  | nestedClass (docNode : Option String) (decorators : List String)
  | otherBinding
deriving Repr, DecidableEq

/-- An astroid `ClassDef` node, restricted to the fields `c.py` reads:
`doc_node`, decorator strings, and `items()` (the ordered class-body
bindings with their names).  `exn` as in `FunctionDef`. -/
structure ClassDef where
  docNode : Option String
  decorators : List String
  items : List (String × ClassItem)
  exn : Option String
deriving Repr, DecidableEq

/-- A top-level module binding as seen by `get_public_symbols`:
the `isinstance(obj, FunctionDef)` / `isinstance(obj, ClassDef)` dispatch
plus the silently-skipped "anything else" case. -/
inductive PyObj where
  | functionDef (f : FunctionDef)
  | classDef (c : ClassDef)
  | other
deriving Repr, DecidableEq

/-- The tuple `(method_name, method_signature, method_doc, method_decorators)`
built by `process_method`. -/
structure MethodRecord where
  name : String
  signature : String
  doc : String
  decorators : List String
deriving Repr, DecidableEq

/-- The symbol records built by `process_function` / `process_class`:
`('function', name, signature, doc, decorators)` and
`('class', name, class_doc, class_decorators, methods)`. -/
inductive SymbolRecord where
  | function (name signature doc : String) (decorators : List String)
  | «class» (name doc : String) (decorators : List String)
      (methods : List MethodRecord)
deriving Repr, DecidableEq

/-- Python `s.startswith(p)`, modelled on the character list: `p` is a
prefix of `s`. -/
def startswith (s p : String) : Bool :=
  p.data.isPrefixOf s.data

/-- Python `s.endswith(p)`, modelled on the character list: `p` is a
suffix of `s`. -/
def endswith (s p : String) : Bool :=
  p.data.isSuffixOf s.data

/-- Embeds `is_public_symbol(name)`:
`not name.startswith('_') or (name.startswith('__') and name.endswith('__'))`. -/
def is_public_symbol (name : String) : Bool :=
  !startswith name "_" || (startswith name "__" && endswith name "__")

/-- Embeds `get_params(func)`: `', '.join(arg.name for arg in func.args.args)`. -/
def get_params (f : FunctionDef) : String :=
  String.intercalate ", " f.argNames

/-- Embeds `process_function(func, name, include_no_docstring)`.  The docstring is
`func.doc_node.value if func.doc_node else ""`; the record is kept when
`include_no_docstring or doc` (Python string truthiness: `doc` is truthy
iff nonempty), otherwise `None` is returned. -/
def process_function (f : FunctionDef) (name : String)
    (include_no_docstring : Bool) : Except String (Option SymbolRecord) :=
  match f.exn with
  | some e => .error e
  | none =>
    let params := get_params f
    let signature := name ++ "(" ++ params ++ ")"
    let doc := f.docNode.getD ""
    let decorators := f.decorators
    if include_no_docstring || doc != "" then
      .ok (some (.function name signature doc decorators))
    else
      .ok none

/-- Embeds `process_method(method, method_name)`. -/
def process_method (method : ClassItem) (method_name : String) :
    Except String MethodRecord :=
  match method with
  | .functionDef f =>
    match f.exn with
    | some e => .error e
    | none =>
      let method_params := get_params f
      let method_signature := method_name ++ "(" ++ method_params ++ ")"
      let method_doc := f.docNode.getD ""
      .ok ⟨method_name, method_signature, method_doc, f.decorators⟩
  | _ => .error "AttributeError"

/-- Embeds `is_valid_method(method, method_name)`:
`isinstance(method, FunctionDef) and is_public_symbol(method_name)`. -/
def is_valid_method (method : ClassItem) (method_name : String) : Bool :=
  (match method with | .functionDef _ => true | _ => false)
    && is_public_symbol method_name

/-- The list comprehension in `process_class`:
`[process_method(method, method_name) for method_name, method in cls.items()
  if is_valid_method(method, method_name)]`, sequenced in `Except` since
`process_method` can raise. -/
def process_methods : List (String × ClassItem) →
    Except String (List MethodRecord)
  | [] => .ok []
  | (method_name, method) :: rest =>
    if is_valid_method method method_name then do
      let r ← process_method method method_name
      let rs ← process_methods rest
      .ok (r :: rs)
    else
      process_methods rest

/-- Embeds `process_class(cls, name, include_no_docstring)`.  Note the flag is a
parameter but is never used in the body. -/
def process_class (c : ClassDef) (name : String)
    (_include_no_docstring : Bool) : Except String SymbolRecord :=
  match c.exn with
  | some e => .error e
  | none => do
    let class_doc := c.docNode.getD ""
    let methods ← process_methods c.items
    .ok (.«class» name class_doc c.decorators methods)

/-- Embeds `log_error(name, error)`: despite its name it raises
`RuntimeError(f"Error processing symbol {name}: {str(error)}")`. -/
def log_error {α : Type} (name : String) (error : String) : Except String α :=
  .error ("Error processing symbol " ++ name ++ ": " ++ error)

/-- Embeds `get_public_symbols(module, include_no_docstring)`: iterate the module's
top-level `(name, obj)` bindings in order; for public names dispatch on the
node kind inside a `try`, appending produced records; on an exception the
`except` clause calls `log_error`, which itself raises, so the error
propagates out of the function. -/
def get_public_symbols : List (String × PyObj) → Bool →
    Except String (List SymbolRecord)
  | [], _ => .ok []
  | (name, obj) :: rest, include_no_docstring =>
    if is_public_symbol name then
      let attempt : Except String (Option SymbolRecord) :=
        match obj with
        | .functionDef f => process_function f name include_no_docstring
        | .classDef c =>
          (process_class c name include_no_docstring).map some
        | .other => .ok none
      match attempt with
      | .ok produced =>
        (get_public_symbols rest include_no_docstring).map
          (fun symbols =>
            match produced with
            | some s => s :: symbols
            | none => symbols)
      | .error e => log_error name e
    else
      get_public_symbols rest include_no_docstring

/-- The `params` expression in `format_symbol`:
`signature.split('(', 1)[1].rsplit(')', 1)[0] if '(' in signature else ''`
(the text after the first `'('`, then up to the last `')'` if there is
one). -/
def format_symbol_params (signature : String) : String :=
  if signature.data.contains '(' then
    let afterFirst := (signature.data.dropWhile (fun c => c != '(')).tail
    let beforeLast :=
      if afterFirst.contains ')' then
        ((afterFirst.reverse.dropWhile (fun c => c != ')')).tail).reverse
      else
        afterFirst
    String.mk beforeLast
  else
    ""

/-- Embeds `format_symbol(name, signature, doc, decorators, is_method)`.  Note the
conditional expression binds as
`(' '.join(f'@{d}' for d in decorators) + ' ') if decorators else ''`,
so an empty decorator list contributes no prefix at all.  (This helper is
defined in `c.py` but never called by `generate_filelist`.) -/
def format_symbol (name signature doc : String) (decorators : List String)
    (is_method : Bool) : String :=
  let params := format_symbol_params signature
  let decorator_str :=
    if decorators != [] then
      String.intercalate " " (decorators.map (fun d => "@" ++ d)) ++ " "
    else
      ""
  let formatted :=
    if is_method then
      "- `" ++ decorator_str ++ name ++ "(" ++ params ++ ")`\n"
    else
      "- `" ++ decorator_str ++ "def " ++ name ++ "(" ++ params ++ ")`\n"
  if doc != "" then
    formatted ++ "    "
      ++ String.intercalate "\n    " (doc.trim.splitOn "\n") ++ "\n"
  else
    formatted

/-- The method-rendering lines of `generate_filelist`:
`method_decorator_str = ' '.join(f'@{d}' for d in method_decorators)` then
`f"    - `{method_decorator_str} def {method_signature}`\n"` plus the
indented stripped docstring when present. -/
def render_method (m : MethodRecord) : String :=
  let method_decorator_str :=
    String.intercalate " " (m.decorators.map (fun d => "@" ++ d))
  let line := "    - `" ++ method_decorator_str ++ " def " ++ m.signature ++ "`\n"
  if m.doc != "" then
    line ++ "        " ++ m.doc.trim ++ "\n\n"
  else
    line

/-- The per-symbol rendering branch of `generate_filelist`'s inner loop:
`f"- `{decorator_str} def {signature}`\n"` for functions and
`f"- `{decorator_str} class {name}`\n"` plus rendered methods for classes,
each followed by the indented stripped docstring when present. -/
def render_symbol (s : SymbolRecord) : String :=
  match s with
  | .function _name signature doc decorators =>
    let decorator_str :=
      String.intercalate " " (decorators.map (fun d => "@" ++ d))
    let line := "- `" ++ decorator_str ++ " def " ++ signature ++ "`\n"
    if doc != "" then line ++ "    " ++ doc.trim ++ "\n\n" else line
  | .«class» name class_doc class_decorators methods =>
    let decorator_str :=
      String.intercalate " " (class_decorators.map (fun d => "@" ++ d))
    let line := "- `" ++ decorator_str ++ " class " ++ name ++ "`\n"
    let line :=
      if class_doc != "" then
        line ++ "    " ++ class_doc.trim ++ "\n\n"
      else
        line
    line ++ String.join (methods.map render_method)

/-- A module as `generate_filelist` sees it: its dotted name (from
`pkgutil.walk_packages`), its astroid `doc_node`, and its top-level
bindings (`module.items()`). -/
structure PyModule where
  name : String
  docNode : Option String
  bindings : List (String × PyObj)
deriving Repr, DecidableEq

/-- The module-docstring block:
`"> " + "\n> ".join(module_doc.strip().split('\n')) + "\n\n"` when the
module docstring is nonempty, nothing otherwise. -/
def module_doc_block (m : PyModule) : String :=
  let module_doc := m.docNode.getD ""
  if module_doc != "" then
    "> " ++ String.intercalate "\n> " (module_doc.trim.splitOn "\n") ++ "\n\n"
  else
    ""

/-- What `generate_filelist` writes for one module with a nonempty symbol
list: the `## <module_name>` header, the module docstring block, then each
symbol. -/
def render_module_section (m : PyModule) (symbols : List SymbolRecord) : String :=
  "## " ++ m.name ++ "\n\n" ++ module_doc_block m
    ++ String.join (symbols.map render_symbol)

/-- The module loop of `generate_filelist`.  State: `out` is the file
content written so far, `logs` the stdout lines printed so far.  Each
module is visited in order; `print(f"Processing module: {module_name}")`
runs first; a module with symbols appends its section to the file, one
without prints `No public symbols found in ...`; an exception inside the
loop body (here: one propagating out of `get_public_symbols`) is wrapped
as `RuntimeError(f"Error processing {module_name}: {str(e)}")`, which
aborts the loop (the result's third component is the raised error's
message; file content and stdout up to that point are kept, since the
`with open` block closes the file on the way out). -/
def process_modules : List PyModule → Bool → String → List String →
    String × List String × Option String
  | [], _, out, logs => (out, logs, none)
  | m :: rest, include_no_docstring, out, logs =>
    let logs := logs ++ ["Processing module: " ++ m.name]
    match get_public_symbols m.bindings include_no_docstring with
    | .error e =>
      (out, logs, some ("Error processing " ++ m.name ++ ": " ++ e))
    | .ok symbols =>
      if symbols.isEmpty then
        process_modules rest include_no_docstring out
          (logs ++ ["No public symbols found in " ++ m.name])
      else
        process_modules rest include_no_docstring
          (out ++ render_module_section m symbols) logs

/-- Embeds `generate_filelist(package_name, output_file, include_no_docstring)`.
`pkg` models the result of `importlib.import_module` followed by
`pkgutil.walk_packages`: `none` when the import raises `ImportError`,
`some modules` otherwise.  The output file is opened with mode `'w'`
(truncating any previous content) and the header line is written BEFORE
the import is attempted.  Result: final file content, stdout lines, and
the raised error's message (`none` on success). -/
def generate_filelist (package_name : String) (pkg : Option (List PyModule))
    (output_file : String) (include_no_docstring : Bool) :
    String × List String × Option String :=
  let header := "# " ++ package_name ++ " Module Documentation\n\n"
  match pkg with
  | none =>
    (header, [],
     some ("Could not import package " ++ package_name ++ ". Is it installed?"))
  | some modules =>
    match process_modules modules include_no_docstring header [] with
    | (out, logs, none) =>
      (out, logs ++ ["Documentation generated in " ++ output_file], none)
    | (out, logs, some e) => (out, logs, some e)

/-- The methods the specification says a public class record exposes:
exactly the class-body bindings that are function-like and pass the
visibility check, each extracted unconditionally (docstring or not, flag
or not); other bindings, nested classes included, contribute nothing. -/
def spec_methods (items : List (String × ClassItem)) : List MethodRecord :=
  items.filterMap (fun p =>
    match p with
    | (n, ClassItem.functionDef f) =>
      if is_public_symbol n then
        some ⟨n, n ++ "(" ++ get_params f ++ ")", f.docNode.getD "", f.decorators⟩
      else none
    | _ => none)

theorem intercalate_two (s a b : String) :
    String.intercalate s [a, b] = a ++ s ++ b := by
  simp [String.intercalate, String.intercalate.go]

theorem intercalate_three (s a b c : String) :
    String.intercalate s [a, b, c] = a ++ s ++ b ++ s ++ c := by
  simp [String.intercalate, String.intercalate.go]

theorem process_methods_eq (items : List (String × ClassItem))
    (h : ∀ n f, (n, ClassItem.functionDef f) ∈ items → f.exn = none) :
    process_methods items = .ok (spec_methods items) := by
  induction items with
  | nil => rfl
  | cons p rest ih =>
    obtain ⟨n, item⟩ := p
    have hrest : ∀ n f, (n, ClassItem.functionDef f) ∈ rest → f.exn = none := by
      intro n' f' hm
      exact h n' f' (List.mem_cons_of_mem _ hm)
    cases item with
    | functionDef f =>
      have hf : f.exn = none := h n f (List.mem_cons_self _ _)
      by_cases hp : is_public_symbol n
      · simp [process_methods, is_valid_method, hp, process_method, hf, ih hrest,
          spec_methods, Bind.bind, Except.bind]
      · simp [process_methods, is_valid_method, hp, ih hrest, spec_methods]
    | nestedClass d ds =>
      simp [process_methods, is_valid_method, ih hrest, spec_methods]
    | otherBinding =>
      simp [process_methods, is_valid_method, ih hrest, spec_methods]

theorem get_public_symbols_error_head (name : String) (f : FunctionDef)
    (e : String) (rest : List (String × PyObj)) (include_no_docstring : Bool)
    (hpub : is_public_symbol name = true) (hexn : f.exn = some e) :
    get_public_symbols ((name, .functionDef f) :: rest) include_no_docstring
      = .error ("Error processing symbol " ++ name ++ ": " ++ e) := by
  simp [get_public_symbols, hpub, process_function, hexn, log_error]

/-- C1: the visibility predicate accepts a name exactly when it does not
start with the private marker `'_'`, or it both starts and ends with the
double marker `"__"`; in particular `"foo"` is public, `"_foo"` is not,
`"__init__"` is public, and `"__foo"` is not. -/
theorem C1_visibility_rule :
    (∀ n : String, is_public_symbol n = true ↔
      (¬ ['_'] <+: n.data ∨ (['_', '_'] <+: n.data ∧ ['_', '_'] <:+ n.data)))
    ∧ is_public_symbol "foo" = true
    ∧ is_public_symbol "_foo" = false
    ∧ is_public_symbol "__init__" = true
    ∧ is_public_symbol "__foo" = false := by
  refine ⟨fun n => ?_, by decide, by decide, by decide, by decide⟩
  have h1 : ("_" : String).data = ['_'] := rfl
  have h2 : ("__" : String).data = ['_', '_'] := rfl
  simp [is_public_symbol, startswith, endswith, h1, h2, Bool.eq_false_iff,
    ne_eq, List.isPrefixOf_iff_prefix, List.isSuffixOf_iff_suffix]

/-- C2: for a public top-level function with an empty docstring and the
flag off, `process_function` yields no record and `get_public_symbols`
drops the function; with the flag on a record is always produced, whose
docstring is the empty string when no docstring node is attached. -/
theorem C2_function_docstring_policy (f : FunctionDef) (name : String)
    (hexn : f.exn = none) (hpub : is_public_symbol name = true) :
    ((f.docNode.getD "") = "" →
       process_function f name false = .ok none ∧
       get_public_symbols [(name, .functionDef f)] false = .ok [])
    ∧ (process_function f name true =
        .ok (some (.function name (name ++ "(" ++ get_params f ++ ")")
          (f.docNode.getD "") f.decorators))
       ∧ get_public_symbols [(name, .functionDef f)] true =
        .ok [.function name (name ++ "(" ++ get_params f ++ ")")
          (f.docNode.getD "") f.decorators])
    ∧ (f.docNode = none → (f.docNode.getD "") = "") := by
  refine ⟨fun hdoc => ⟨?_, ?_⟩, ⟨?_, ?_⟩, fun hnone => ?_⟩
  · simp [process_function, hexn, hdoc]
  · simp [get_public_symbols, hpub, process_function, hexn, hdoc, Except.map]
  · simp [process_function, hexn]
  · simp [get_public_symbols, hpub, process_function, hexn, Except.map]
  · simp [hnone]

theorem C2_function_docstring_policy_witness :
    (FunctionDef.mk [] none [] none).exn = none
    ∧ is_public_symbol "f" = true
    ∧ process_function ⟨[], none, [], none⟩ "f" false = .ok none
    ∧ get_public_symbols [("f", .functionDef ⟨[], none, [], none⟩)] false = .ok []
    ∧ process_function ⟨[], none, [], none⟩ "f" true
        = .ok (some (.function "f" "f()" "" [])) :=
  ⟨rfl, by decide,
   ((C2_function_docstring_policy ⟨[], none, [], none⟩ "f" rfl (by decide)).1 rfl).1,
   ((C2_function_docstring_policy ⟨[], none, [], none⟩ "f" rfl (by decide)).1 rfl).2,
   (C2_function_docstring_policy ⟨[], none, [], none⟩ "f" rfl (by decide)).2.1.1⟩

/-- C3: a public top-level class always yields a class record, appended to
the symbol list whatever the value of `include_no_docstring` and whether or
not the class has a docstring (`process_class` ignores the flag entirely:
its results at any two flag values coincide). -/
theorem C3_class_always_included (c : ClassDef) (name : String) (i₁ i₂ : Bool)
    (hexn : c.exn = none) (hpub : is_public_symbol name = true)
    (hm : ∀ n f, (n, ClassItem.functionDef f) ∈ c.items → f.exn = none) :
    (∃ methods,
       process_class c name i₁
         = .ok (.«class» name (c.docNode.getD "") c.decorators methods)
       ∧ get_public_symbols [(name, .classDef c)] i₁
         = .ok [.«class» name (c.docNode.getD "") c.decorators methods])
    ∧ process_class c name i₁ = process_class c name i₂ := by
  refine ⟨⟨spec_methods c.items, ?_, ?_⟩, rfl⟩
  · simp [process_class, hexn, process_methods_eq c.items hm, Bind.bind,
      Except.bind]
  · simp [get_public_symbols, hpub, process_class, hexn,
      process_methods_eq c.items hm, Bind.bind, Except.bind, Except.map]

theorem C3_class_always_included_witness :
    (ClassDef.mk none [] [] none).exn = none
    ∧ is_public_symbol "C" = true
    ∧ (∃ methods, process_class ⟨none, [], [], none⟩ "C" false
          = .ok (.«class» "C" "" [] methods)
        ∧ get_public_symbols [("C", .classDef ⟨none, [], [], none⟩)] false
          = .ok [.«class» "C" "" [] methods])
    ∧ process_class ⟨none, [], [], none⟩ "C" false
        = process_class ⟨none, [], [], none⟩ "C" true :=
  ⟨rfl, by decide,
   (C3_class_always_included ⟨none, [], [], none⟩ "C" false true rfl (by decide)
      (by intro n f hmem; exact absurd hmem (List.not_mem_nil _))).1,
   (C3_class_always_included ⟨none, [], [], none⟩ "C" false true rfl (by decide)
      (by intro n f hmem; exact absurd hmem (List.not_mem_nil _))).2⟩

/-- C4: the methods of a public class record are exactly the class-body
bindings that are function-like and pass the visibility check, each
extracted unconditionally — independent of docstring presence and of
`include_no_docstring` (the flag argument is arbitrary here and absent
from the result) — while non-function bindings, nested classes included,
are excluded and not recursed into (they contribute nothing). -/
theorem C4_class_methods_exact (c : ClassDef) (name : String)
    (include_no_docstring : Bool) (hexn : c.exn = none)
    (hm : ∀ n f, (n, ClassItem.functionDef f) ∈ c.items → f.exn = none) :
    process_class c name include_no_docstring
      = .ok (.«class» name (c.docNode.getD "") c.decorators
          (spec_methods c.items)) := by
  simp [process_class, hexn, process_methods_eq c.items hm, Bind.bind,
    Except.bind]

theorem C4_class_methods_exact_witness :
    (ClassDef.mk none []
      [("m", .functionDef ⟨[], some "doc", [], none⟩),
       ("u", .functionDef ⟨[], none, [], none⟩),
       ("N", .nestedClass none []),
       ("_p", .functionDef ⟨[], none, [], none⟩),
       ("CONST", .otherBinding)] none).exn = none
    ∧ process_class
        ⟨none, [],
         [("m", .functionDef ⟨[], some "doc", [], none⟩),
          ("u", .functionDef ⟨[], none, [], none⟩),
          ("N", .nestedClass none []),
          ("_p", .functionDef ⟨[], none, [], none⟩),
          ("CONST", .otherBinding)], none⟩ "C" false
      = .ok (.«class» "C" "" []
          [⟨"m", "m()", "doc", []⟩, ⟨"u", "u()", "", []⟩]) :=
  ⟨rfl,
   C4_class_methods_exact
     ⟨none, [],
      [("m", .functionDef ⟨[], some "doc", [], none⟩),
       ("u", .functionDef ⟨[], none, [], none⟩),
       ("N", .nestedClass none []),
       ("_p", .functionDef ⟨[], none, [], none⟩),
       ("CONST", .otherBinding)], none⟩ "C" false rfl
     (by
       intro n f hmem
       simp at hmem
       rcases hmem with ⟨hn, hf⟩ | ⟨hn, hf⟩ | ⟨hn, hf⟩ <;> simp [hf])⟩

/-- C5 counterexample: a module whose first symbol raises while being
extracted.  The claim predicts the error is swallowed and processing
continues, producing the record of the following symbol `"good"`; instead
`get_public_symbols` returns the re-raised, wrapped error and no symbol
list at all, so the module pass is aborted. -/
theorem C5_per_symbol_error_not_isolated_cex :
    get_public_symbols
      [("bad", .functionDef ⟨[], none, [], some "boom"⟩),
       ("good", .functionDef ⟨[], some "doc", [], none⟩)] false
      = .error "Error processing symbol bad: boom"
    ∧ get_public_symbols
      [("bad", .functionDef ⟨[], none, [], some "boom"⟩),
       ("good", .functionDef ⟨[], some "doc", [], none⟩)] false
      ≠ .ok [.function "good" "good()" "doc" []] := by
  refine ⟨rfl, fun h => ?_⟩
  rw [show get_public_symbols
      [("bad", .functionDef ⟨[], none, [], some "boom"⟩),
       ("good", .functionDef ⟨[], some "doc", [], none⟩)] false
      = .error "Error processing symbol bad: boom" from rfl] at h
  exact Except.noConfusion h

/-- C5 as amended: an exception raised while classifying or extracting one
top-level public symbol is caught and immediately re-raised by `log_error`
as a `RuntimeError` carrying the symbol's name; it aborts the module pass
(the remaining symbols, `rest`, are never processed — the result is this
error whatever follows) instead of continuing with the next symbol. -/
theorem C5_per_symbol_error_reraised (name : String) (f : FunctionDef)
    (e : String) (rest : List (String × PyObj)) (include_no_docstring : Bool)
    (hpub : is_public_symbol name = true) (hexn : f.exn = some e) :
    get_public_symbols ((name, .functionDef f) :: rest) include_no_docstring
      = .error ("Error processing symbol " ++ name ++ ": " ++ e) :=
  get_public_symbols_error_head name f e rest include_no_docstring hpub hexn

theorem C5_per_symbol_error_reraised_witness :
    is_public_symbol "bad" = true
    ∧ (FunctionDef.mk [] none [] (some "boom")).exn = some "boom"
    ∧ get_public_symbols
        [("bad", .functionDef ⟨[], none, [], some "boom"⟩),
         ("good", .functionDef ⟨[], some "doc", [], none⟩)] true
        = .error "Error processing symbol bad: boom" :=
  ⟨by decide, rfl,
   C5_per_symbol_error_reraised "bad" ⟨[], none, [], some "boom"⟩ "boom"
     [("good", .functionDef ⟨[], some "doc", [], none⟩)] true (by decide) rfl⟩

/-- C6: an exception while extracting one top-level symbol is re-raised
wrapped with the symbol's name; while processing a module it is wrapped
again with the module's name (`Error processing <module>: Error processing
symbol <name>: <e>`), and this aborts the whole run: the result does not
depend on the remaining modules `rest`, which are never visited, and
`generate_filelist` surfaces the same error with only the header in the
output file. -/
theorem C6_error_wrapping_aborts_run (m : PyModule) (rest : List PyModule)
    (include_no_docstring : Bool) (name : String) (f : FunctionDef)
    (e : String) (brest : List (String × PyObj)) (pkg out fileAcc : String)
    (logs : List String)
    (hb : m.bindings = (name, .functionDef f) :: brest)
    (hpub : is_public_symbol name = true) (hexn : f.exn = some e) :
    process_modules (m :: rest) include_no_docstring fileAcc logs =
      (fileAcc, logs ++ ["Processing module: " ++ m.name],
       some ("Error processing " ++ m.name ++ ": Error processing symbol "
         ++ name ++ ": " ++ e))
    ∧ generate_filelist pkg (some (m :: rest)) out include_no_docstring =
      ("# " ++ pkg ++ " Module Documentation\n\n",
       ["Processing module: " ++ m.name],
       some ("Error processing " ++ m.name ++ ": Error processing symbol "
         ++ name ++ ": " ++ e)) := by
  have hsym : get_public_symbols m.bindings include_no_docstring
      = .error ("Error processing symbol " ++ name ++ ": " ++ e) := by
    rw [hb]
    exact get_public_symbols_error_head name f e brest include_no_docstring
      hpub hexn
  have hsplit : (": Error processing symbol " : String)
      = ": " ++ "Error processing symbol " := rfl
  constructor
  · simp [process_modules, hsym, hsplit, String.append_assoc]
    congr 2
  · simp [generate_filelist, process_modules, hsym, hsplit, String.append_assoc]
    congr 2

theorem C6_error_wrapping_aborts_run_witness :
    is_public_symbol "bad" = true
    ∧ (FunctionDef.mk [] none [] (some "boom")).exn = some "boom"
    ∧ process_modules
        [⟨"pkg.mod", none, [("bad", .functionDef ⟨[], none, [], some "boom"⟩)]⟩]
        false "HDR" [] =
      ("HDR", ["Processing module: pkg.mod"],
       some "Error processing pkg.mod: Error processing symbol bad: boom")
    ∧ generate_filelist "pkg"
        (some [⟨"pkg.mod", none,
          [("bad", .functionDef ⟨[], none, [], some "boom"⟩)]⟩])
        "out.md" false =
      ("# pkg Module Documentation\n\n", ["Processing module: pkg.mod"],
       some "Error processing pkg.mod: Error processing symbol bad: boom") :=
  ⟨by decide, rfl,
   (C6_error_wrapping_aborts_run
     ⟨"pkg.mod", none, [("bad", .functionDef ⟨[], none, [], some "boom"⟩)]⟩
     [] false "bad" ⟨[], none, [], some "boom"⟩ "boom" [] "pkg" "out.md"
     "HDR" [] rfl (by decide) rfl).1,
   (C6_error_wrapping_aborts_run
     ⟨"pkg.mod", none, [("bad", .functionDef ⟨[], none, [], some "boom"⟩)]⟩
     [] false "bad" ⟨[], none, [], some "boom"⟩ "boom" [] "pkg" "out.md"
     "HDR" [] rfl (by decide) rfl).2⟩

/-- C7 counterexample: the renderer actually used by `generate_filelist`
joins the (empty) decorator list and then writes
`f"- \x7bdecorator_str\x7d def \x7bsignature\x7d"`, so a function with no
decorators renders with a leftover space between the backtick and `def` —
not with no prefix at all as the claim states. -/
theorem C7_empty_decorator_space_cex :
    render_symbol (.function "f" "f(a)" "" []) = "- ` def f(a)`\n"
    ∧ render_symbol (.function "f" "f(a)" "" []) ≠ "- `def f(a)`\n" := by
  refine ⟨by decide, by decide⟩

/-- C7 as amended: decorator lists render as space-joined, `@`-prefixed
strings in declaration order (`x` then `y` gives `@x @y`) in both the
unused helper `format_symbol` and the operative renderer; on an empty
decorator list `format_symbol` emits no prefix at all before `def`, but
the renderer inside `generate_filelist` always inserts one space between
the joined decorator string and `def`/`class`, leaving a single leftover
space when the list is empty. -/
theorem C7_decorator_rendering (x y name sig : String) :
    render_symbol (.function name sig "" [x, y])
      = "- `@" ++ x ++ " @" ++ y ++ " def " ++ sig ++ "`\n"
    ∧ render_symbol (.«class» name "" [x, y] [])
      = "- `@" ++ x ++ " @" ++ y ++ " class " ++ name ++ "`\n"
    ∧ format_symbol name sig "" [x, y] false
      = "- `@" ++ x ++ " @" ++ y ++ " def " ++ name ++ "("
          ++ format_symbol_params sig ++ ")`\n"
    ∧ format_symbol name sig "" [] false
      = "- `def " ++ name ++ "(" ++ format_symbol_params sig ++ ")`\n"
    ∧ render_symbol (.function name sig "" [])
      = "- ` def " ++ sig ++ "`\n"
    ∧ render_symbol (.«class» name "" [] [])
      = "- ` class " ++ name ++ "`\n" := by
  have d1 : ("- `@" : String).data = ['-', ' ', '`', '@'] := rfl
  have d2 : (" @" : String).data = [' ', '@'] := rfl
  have d3 : ("- `" : String).data = ['-', ' ', '`'] := rfl
  have d4 : ("@" : String).data = ['@'] := rfl
  have d5 : (" " : String).data = [' '] := rfl
  refine ⟨?_, ?_, ?_, ?_, ?_, ?_⟩
  · apply String.ext
    simp [render_symbol, intercalate_two, d1, d2, d3, d4, d5]
  · apply String.ext
    simp [render_symbol, intercalate_two, d1, d2, d3, d4, d5, String.join]
  · apply String.ext
    simp [format_symbol, intercalate_two, d1, d2, d3, d4, d5]
  · apply String.ext
    simp [format_symbol]
  · apply String.ext
    simp [render_symbol, String.intercalate]
  · apply String.ext
    simp [render_symbol, String.intercalate, String.join]

/-- C8: for a function-like node with positional parameters declared
left-to-right as `a`, `b`, `c`, the extracted parameter string is exactly
the declared names joined by `", "` in declaration order, whatever the
docstring, decorators or pending exception of the node. -/
theorem C8_param_order (a b c : String) (docNode : Option String)
    (decorators : List String) (exn : Option String) :
    get_params ⟨[a, b, c], docNode, decorators, exn⟩
      = a ++ ", " ++ b ++ ", " ++ c := by
  simp [get_params, intercalate_three]

/-- C9: a module whose extracted symbol list is empty contributes nothing
to the output document — the accumulated file content `out` is passed on
unchanged, so no `##` section appears for it — while the module is still
visited (its progress line and the `No public symbols` line are logged);
a module with at least one kept record appends a section starting with its
`##` header. -/
theorem C9_empty_module_skipped (m : PyModule) (rest : List PyModule)
    (include_no_docstring : Bool) (out : String) (logs : List String) :
    (get_public_symbols m.bindings include_no_docstring = .ok [] →
       process_modules (m :: rest) include_no_docstring out logs =
         process_modules rest include_no_docstring out
           (logs ++ ["Processing module: " ++ m.name,
             "No public symbols found in " ++ m.name]))
    ∧ (∀ s ss,
       get_public_symbols m.bindings include_no_docstring = .ok (s :: ss) →
       process_modules (m :: rest) include_no_docstring out logs =
         process_modules rest include_no_docstring
           (out ++ render_module_section m (s :: ss))
           (logs ++ ["Processing module: " ++ m.name])) := by
  constructor
  · intro h
    simp [process_modules, h]
  · intro s ss h
    simp [process_modules, h]

theorem C9_empty_module_skipped_witness :
    get_public_symbols ([] : List (String × PyObj)) false = .ok []
    ∧ process_modules [⟨"pkg.empty", none, []⟩] false "HDR" [] =
        process_modules [] false "HDR"
          ["Processing module: pkg.empty",
           "No public symbols found in pkg.empty"] :=
  ⟨rfl, (C9_empty_module_skipped ⟨"pkg.empty", none, []⟩ [] false "HDR" []).1 rfl⟩

/-- C10: when the package import fails, `generate_filelist` has already
opened (and so truncated) the output file and written the header line, so
the run raises the import error while the file holds exactly the header
`# <package_name> Module Documentation` and its trailing blank line;
nothing is logged and no module is processed — the failing run is not
atomic with respect to the output file. -/
theorem C10_header_written_before_import (package_name output_file : String)
    (include_no_docstring : Bool) :
    generate_filelist package_name none output_file include_no_docstring =
      ("# " ++ package_name ++ " Module Documentation\n\n", [],
       some ("Could not import package " ++ package_name
         ++ ". Is it installed?")) := rfl
